import Mathlib

/-!
Shallow embedding of `src/framebuffer/Billboard.cpp` from the
magnum-examples repository.

The `Billboard` class is a scene-graph node that renders a textured quad
with a colour-correction lookup texture.  Its constructor and its `draw`
method are straight-line sequences of calls into the host Magnum engine.
We embed them as pure functions that return the constructed object state
together with the list of engine operations they issue, and we interpret
those operations with an explicit GPU-state step function.

GLfloat values are modelled by `GLnum`: an exact rational in the finite
case, with explicit infinity and NaN constructors so that division by
zero (as performed unguarded on line 38 of the source) is represented
faithfully at the level of finiteness.
-/

namespace Magnum

/-- Model of a `GLfloat` value: a finite rational, an infinity, or NaN. -/
inductive GLnum where
  | fin (q : ℚ)
  | inf
  | negInf
  | nan
deriving DecidableEq

/-- IEEE-style division producing a `GLnum`: for a nonzero divisor the
exact quotient, for a zero divisor an infinity of the numerator's sign,
and NaN for zero over zero. -/
def glDiv (a b : ℚ) : GLnum :=
  if b = 0 then
    if 0 < a then GLnum.inf
    else if a < 0 then GLnum.negInf
    else GLnum.nan
  else GLnum.fin (a / b)

/-- A `GLnum` is finite exactly when it is a rational value. -/
def GLnum.isFinite : GLnum → Bool
  | .fin _ => true
  | _ => false

/-- Model of `Magnum::Vector2` (of GLfloats). -/
structure Vector2 where
  x : GLnum
  y : GLnum
deriving DecidableEq

/-- `Vector2::yScale(v)`: scaling vector with unit x component. -/
def Vector2.yScale (v : GLnum) : Vector2 :=
  ⟨GLnum.fin 1, v⟩

/-- Model of `Magnum::Vector2i` (integer sizes, `image->size()`). -/
structure Vector2i where
  x : ℤ
  y : ℤ
deriving DecidableEq

/-- Model of `Magnum::Matrix3` with exact rational entries, row i column j. -/
structure Matrix3 where
  a00 : ℚ
  a01 : ℚ
  a02 : ℚ
  a10 : ℚ
  a11 : ℚ
  a12 : ℚ
  a20 : ℚ
  a21 : ℚ
  a22 : ℚ
deriving DecidableEq

/-- Matrix product, `m * n` in the source. -/
def Matrix3.mul (m n : Matrix3) : Matrix3 :=
  ⟨m.a00 * n.a00 + m.a01 * n.a10 + m.a02 * n.a20,
   m.a00 * n.a01 + m.a01 * n.a11 + m.a02 * n.a21,
   m.a00 * n.a02 + m.a01 * n.a12 + m.a02 * n.a22,
   m.a10 * n.a00 + m.a11 * n.a10 + m.a12 * n.a20,
   m.a10 * n.a01 + m.a11 * n.a11 + m.a12 * n.a21,
   m.a10 * n.a02 + m.a11 * n.a12 + m.a12 * n.a22,
   m.a20 * n.a00 + m.a21 * n.a10 + m.a22 * n.a20,
   m.a20 * n.a01 + m.a21 * n.a11 + m.a22 * n.a21,
   m.a20 * n.a02 + m.a21 * n.a12 + m.a22 * n.a22⟩

/-- Model of `Trade::ImageData2D`: a size vector and a pixel buffer. -/
structure ImageData2D where
  size : Vector2i
  pixels : List ℚ
deriving DecidableEq

/-- Model of `SceneGraph::Camera2D`: the only member the code reads is
`projectionMatrix()`. -/
structure Camera2D where
  projectionMatrix : Matrix3
deriving DecidableEq

/-- Buffers are identified by an id; contents live in the GPU state. -/
abbrev BufferId := Nat

/-- `Mesh::Primitive`. -/
inductive MeshPrimitive where
  | points
  | triangles
  | triangleStrip
  | triangleFan
deriving DecidableEq

/-- `Mesh::BufferType`. -/
inductive MeshBufferType where
  | interleaved
  | nonInterleaved
deriving DecidableEq

/-- `Buffer::Usage`. -/
inductive BufferUsage where
  | staticDraw
  | dynamicDraw
deriving DecidableEq

/-- `AbstractTexture::Wrapping`. -/
inductive TextureWrapping where
  | clampToBorder
  | clampToEdge
  | repeated
deriving DecidableEq

/-- `AbstractTexture::Filter`. -/
inductive TextureFilter where
  | nearestNeighbor
  | linearInterpolation
deriving DecidableEq

/-- `AbstractTexture::Format`. -/
inductive TextureFormat where
  | rgba
  | rgb
deriving DecidableEq

/-- `BufferedTexture::Components|ComponentType` combination used by the
source: `Components::Red|ComponentType::Float`. -/
inductive BufferedTextureComponents where
  | redFloat
  | rgbaFloat
deriving DecidableEq

/-- Shader vertex attributes; the source binds `ColorCorrectionShader::Position`. -/
inductive ShaderAttribute where
  | position
  | textureCoords
deriving DecidableEq

/-- Engine operations issued by `Billboard`'s constructor and `draw`,
one constructor per call into the host engine, with the payloads the
source passes. -/
inductive Op where
  | addBuffer (t : MeshBufferType) (buf : BufferId)
  | bufferSetData (buf : BufferId) (data : List ℚ) (usage : BufferUsage)
  | bindAttribute (attr : ShaderAttribute) (buf : BufferId)
  | textureSetWrapping (wx wy : TextureWrapping)
  | textureSetMagnificationFilter (f : TextureFilter)
  | textureSetMinificationFilter (f : TextureFilter)
  | textureSetData (mipLevel : ℤ) (format : TextureFormat) (pixels : List ℚ)
  | setBuffer (components : BufferedTextureComponents) (buf : BufferId)
  | nodeScale (v : Vector2)
  | shaderUse
  | setMatrixUniform (m : Matrix3)
  | textureBind (layer : Nat)
  | colorCorrectionTextureBind (layer : Nat)
  | meshDraw
deriving DecidableEq

/-- The payload-free kind of an operation, used to state that the call
sequences are unconditional (the same for every input). -/
inductive OpKind where
  | addBuffer
  | bufferSetData
  | bindAttribute
  | textureSetWrapping
  | textureSetMagnificationFilter
  | textureSetMinificationFilter
  | textureSetData
  | setBuffer
  | nodeScale
  | shaderUse
  | setMatrixUniform
  | textureBind
  | colorCorrectionTextureBind
  | meshDraw
deriving DecidableEq

/-- Kind of an operation. -/
def Op.kind : Op → OpKind
  | .addBuffer _ _ => .addBuffer
  | .bufferSetData _ _ _ => .bufferSetData
  | .bindAttribute _ _ => .bindAttribute
  | .textureSetWrapping _ _ => .textureSetWrapping
  | .textureSetMagnificationFilter _ => .textureSetMagnificationFilter
  | .textureSetMinificationFilter _ => .textureSetMinificationFilter
  | .textureSetData _ _ _ => .textureSetData
  | .setBuffer _ _ => .setBuffer
  | .nodeScale _ => .nodeScale
  | .shaderUse => .shaderUse
  | .setMatrixUniform _ => .setMatrixUniform
  | .textureBind _ => .textureBind
  | .colorCorrectionTextureBind _ => .colorCorrectionTextureBind
  | .meshDraw => .meshDraw

/-- Is this operation the mesh draw call (`mesh.draw()`)? -/
def Op.isMeshDraw : Op → Bool
  | .meshDraw => true
  | _ => false

/-- Is this operation the shader activation (`shader.use()`)? -/
def Op.isShaderUse : Op → Bool
  | .shaderUse => true
  | _ => false

/-- Is this operation the colour-texture bind (`texture.bind(...)`)? -/
def Op.isTextureBind : Op → Bool
  | .textureBind _ => true
  | _ => false

/-- Is this operation the colour-correction-texture bind? -/
def Op.isColorCorrectionTextureBind : Op → Bool
  | .colorCorrectionTextureBind _ => true
  | _ => false

/-- Is this operation the texture data upload (`texture.setData(...)`)? -/
def Op.isTextureSetData : Op → Bool
  | .textureSetData _ _ _ => true
  | _ => false

/-- Is this operation the mesh buffer allocation (`mesh.addBuffer(...)`)? -/
def Op.isAddBuffer : Op → Bool
  | .addBuffer _ _ => true
  | _ => false

/-- Is this operation the vertex-buffer upload (`buffer->setData(...)`)? -/
def Op.isBufferSetData : Op → Bool
  | .bufferSetData _ _ _ => true
  | _ => false

/-- Is this operation the attribute binding (`mesh.bindAttribute(...)`)? -/
def Op.isBindAttribute : Op → Bool
  | .bindAttribute _ _ => true
  | _ => false

/-- Operations into which the image's pixel buffer flows.  In the source
the image pixels reach the engine only through `texture.setData(0,
Format::RGBA, image)` on line 34. -/
def Op.usesImagePixels : Op → Bool
  | .textureSetData _ _ _ => true
  | _ => false

/-- Operations whose argument is computed from the image's size.  In the
source `image->size()` is read only to build the scaling vector
`Vector2::yScale(GLfloat(image->size()[1])/image->size()[0])` passed to
`scale(...)` on line 38. -/
def Op.usesImageSize : Op → Bool
  | .nodeScale _ => true
  | _ => false

/-- State of the quad mesh owned by the billboard: declared in the
member initialiser list as `mesh(Mesh::Primitive::TriangleStrip, 4)`,
then given one non-interleaved buffer and one attribute binding. -/
structure MeshData where
  primitive : MeshPrimitive
  vertexCount : Nat
  buffers : List (MeshBufferType × BufferId)
  attributeBindings : List (ShaderAttribute × BufferId)
deriving DecidableEq

/-- Configuration state of the owned `Texture2D`. -/
structure TextureData where
  wrapping : TextureWrapping × TextureWrapping
  magnificationFilter : TextureFilter
  minificationFilter : TextureFilter
  uploadedPixels : List ℚ
deriving DecidableEq

/-- Configuration state of the owned `BufferedTexture`. -/
structure BufferedTextureData where
  components : BufferedTextureComponents
  buffer : BufferId
deriving DecidableEq

/-- The `Billboard` object: a scene node (with a parent and an applied
scaling) owning a mesh, a colour texture and a colour-correction
buffered texture.  The shader is a shared member whose identity nothing
in the source changes, so it is not a mutable field here. -/
structure Billboard where
  parent : Nat
  mesh : MeshData
  texture : TextureData
  colorCorrectionTexture : BufferedTextureData
  nodeScaling : Vector2
deriving DecidableEq

/-- Position data of the host engine's `Primitives::Square` (a
triangle-strip unit quad), flattened; `square.positions(0)` in the
source.  Modelled from the host library, which is outside this
repository; no claim depends on the concrete values. -/
def squarePositions : List ℚ :=
  [-1, -1, 1, -1, -1, 1, 1, 1]

/-- Modelled from the spec: `ColorCorrectionShader::TextureLayer`.  The
shader header is not under `src/`; the spec only requires two distinct
texture layers, one per texture. -/
def textureLayer : Nat := 0

/-- Modelled from the spec: `ColorCorrectionShader::ColorCorrectionTextureLayer`. -/
def colorCorrectionTextureLayer : Nat := 1

/-- The `Billboard` constructor (lines 24 to 39 of the source).  It
returns the constructed object together with the list of engine
operations issued, in source order.  `mesh.addBuffer` allocates a fresh
buffer inside the mesh; the embedding takes that fresh buffer's id as
the parameter `freshBuffer`, and theorems that need its freshness
(distinctness from the externally supplied colour-correction buffer)
assume it explicitly. -/
def Billboard.make (image : ImageData2D) (colorCorrectionBuffer : BufferId)
    (parent : Nat) (freshBuffer : BufferId) : Billboard × List Op :=
  (⟨parent,
    ⟨MeshPrimitive.triangleStrip, 4,
     [(MeshBufferType.nonInterleaved, freshBuffer)],
     [(ShaderAttribute.position, freshBuffer)]⟩,
    ⟨(TextureWrapping.clampToBorder, TextureWrapping.clampToBorder),
     TextureFilter.linearInterpolation,
     TextureFilter.linearInterpolation,
     image.pixels⟩,
    ⟨BufferedTextureComponents.redFloat, colorCorrectionBuffer⟩,
    Vector2.yScale (glDiv (image.size.y : ℚ) (image.size.x : ℚ))⟩,
   [Op.addBuffer MeshBufferType.nonInterleaved freshBuffer,
    Op.bufferSetData freshBuffer squarePositions BufferUsage.staticDraw,
    Op.bindAttribute ShaderAttribute.position freshBuffer,
    Op.textureSetWrapping TextureWrapping.clampToBorder TextureWrapping.clampToBorder,
    Op.textureSetMagnificationFilter TextureFilter.linearInterpolation,
    Op.textureSetMinificationFilter TextureFilter.linearInterpolation,
    Op.textureSetData 0 TextureFormat.rgba image.pixels,
    Op.setBuffer BufferedTextureComponents.redFloat colorCorrectionBuffer,
    Op.nodeScale (Vector2.yScale (glDiv (image.size.y : ℚ) (image.size.x : ℚ)))])

/-- `Billboard::draw` (lines 41 to 48 of the source): returns the object
after the call together with the engine operations issued, in source
order.  The method body assigns no field, so the object component is the
receiver itself. -/
def Billboard.draw (b : Billboard) (transformationMatrix : Matrix3)
    (camera : Camera2D) : Billboard × List Op :=
  (b,
   [Op.shaderUse,
    Op.setMatrixUniform (camera.projectionMatrix.mul transformationMatrix),
    Op.textureBind textureLayer,
    Op.colorCorrectionTextureBind colorCorrectionTextureLayer,
    Op.meshDraw])

/-- GPU-side state affected by the issued operations: a store of buffer
contents plus the pipeline bindings. -/
structure GPUState where
  bufferContents : BufferId → List ℚ
  shaderActive : Bool
  matrixUniform : Option Matrix3
  textureLayerBound : Option Nat
  colorCorrectionLayerBound : Option Nat
  drawCallCount : Nat

/-- Effect of one operation on the GPU state.  `bufferSetData` is the
only operation that writes buffer contents; `setBuffer` attaches a
buffer to a buffered texture and reads it, texture binds and parameter
setters touch no buffer. -/
def Op.step (op : Op) (s : GPUState) : GPUState :=
  match op with
  | .bufferSetData buf data _ =>
      { s with bufferContents := Function.update s.bufferContents buf data }
  | .shaderUse => { s with shaderActive := true }
  | .setMatrixUniform m => { s with matrixUniform := some m }
  | .textureBind layer => { s with textureLayerBound := some layer }
  | .colorCorrectionTextureBind layer =>
      { s with colorCorrectionLayerBound := some layer }
  | .meshDraw => { s with drawCallCount := s.drawCallCount + 1 }
  | _ => s

/-- Run a list of operations left to right on a GPU state. -/
def runOps (ops : List Op) (s : GPUState) : GPUState :=
  ops.foldl (fun t op => op.step t) s

/-- The construct-then-draw usage pattern: the constructor's operations
followed by the operations of a sequence of `draw` calls with the given
arguments. -/
def constructThenDraw (image : ImageData2D) (colorCorrectionBuffer : BufferId)
    (parent : Nat) (freshBuffer : BufferId)
    (draws : List (Matrix3 × Camera2D)) : List Op :=
  (Billboard.make image colorCorrectionBuffer parent freshBuffer).2 ++
    (draws.map (fun dc =>
      ((Billboard.make image colorCorrectionBuffer parent freshBuffer).1.draw
        dc.1 dc.2).2)).flatten

/-- The fixed kind sequence of the constructor's operations. -/
def ctorKinds : List OpKind :=
  [OpKind.addBuffer, OpKind.bufferSetData, OpKind.bindAttribute,
   OpKind.textureSetWrapping, OpKind.textureSetMagnificationFilter,
   OpKind.textureSetMinificationFilter, OpKind.textureSetData,
   OpKind.setBuffer, OpKind.nodeScale]

/-- The fixed kind sequence of a `draw` call's operations. -/
def drawKinds : List OpKind :=
  [OpKind.shaderUse, OpKind.setMatrixUniform, OpKind.textureBind,
   OpKind.colorCorrectionTextureBind, OpKind.meshDraw]

/-- Claim C1: for every image with positive width and height, the
constructor scales the node by `Vector2::yScale` of the image's height
over its width: the horizontal factor is 1 and the vertical factor is
exactly height divided by width. -/
theorem billboard_vertical_scale_eq_height_div_width
    (image : ImageData2D) (colorCorrectionBuffer : BufferId)
    (parent : Nat) (freshBuffer : BufferId)
    (hw : 0 < image.size.x) (_hh : 0 < image.size.y) :
    (Billboard.make image colorCorrectionBuffer parent freshBuffer).1.nodeScaling =
      ⟨GLnum.fin 1, GLnum.fin ((image.size.y : ℚ) / (image.size.x : ℚ))⟩ := by
  have hx : ((image.size.x : ℚ)) ≠ 0 := by
    exact_mod_cast hw.ne'
  simp [Billboard.make, Vector2.yScale, glDiv, hx]

/-- Witness for C1 at a concrete 4 by 3 image. -/
theorem billboard_vertical_scale_eq_height_div_width_witness :
    (Billboard.make ⟨⟨4, 3⟩, [1]⟩ 0 7 1).1.nodeScaling =
      ⟨GLnum.fin 1, GLnum.fin (((3 : ℤ) : ℚ) / ((4 : ℤ) : ℚ))⟩ :=
  billboard_vertical_scale_eq_height_div_width ⟨⟨4, 3⟩, [1]⟩ 0 7 1
    (by decide) (by decide)

/-- Claim C3: `Billboard::draw` is a direct pass-through: its whole
operation sequence is fixed except for the single matrix uniform, which
is exactly the camera's projection matrix times the transformation
matrix; neither argument is used anywhere else. -/
theorem draw_matrix_uniform_is_projection_mul_transformation
    (b : Billboard) (transformationMatrix : Matrix3) (camera : Camera2D) :
    (b.draw transformationMatrix camera).2 =
      [Op.shaderUse,
       Op.setMatrixUniform (camera.projectionMatrix.mul transformationMatrix),
       Op.textureBind textureLayer,
       Op.colorCorrectionTextureBind colorCorrectionTextureLayer,
       Op.meshDraw] := rfl

/-- Claim C7: neither the constructor nor `draw` has an error branch:
for every input each issues the same unconditional sequence of
operation kinds. -/
theorem no_error_branch_fixed_call_sequences
    (image : ImageData2D) (colorCorrectionBuffer : BufferId)
    (parent : Nat) (freshBuffer : BufferId)
    (b : Billboard) (transformationMatrix : Matrix3) (camera : Camera2D) :
    ((Billboard.make image colorCorrectionBuffer parent freshBuffer).2).map Op.kind
        = ctorKinds ∧
      ((b.draw transformationMatrix camera).2).map Op.kind = drawKinds :=
  ⟨rfl, rfl⟩

/-- Claim C8: the parent handle is forwarded unmodified to the node,
and the mesh is a triangle strip of 4 vertices with a single
non-interleaved buffer (one `addBuffer` call) carrying the position
attribute. -/
theorem parent_forwarded_and_quad_mesh_shape
    (image : ImageData2D) (colorCorrectionBuffer : BufferId)
    (parent : Nat) (freshBuffer : BufferId) :
    (Billboard.make image colorCorrectionBuffer parent freshBuffer).1.parent = parent ∧
      (Billboard.make image colorCorrectionBuffer parent freshBuffer).1.mesh.primitive
        = MeshPrimitive.triangleStrip ∧
      (Billboard.make image colorCorrectionBuffer parent freshBuffer).1.mesh.vertexCount = 4 ∧
      (Billboard.make image colorCorrectionBuffer parent freshBuffer).1.mesh.buffers
        = [(MeshBufferType.nonInterleaved, freshBuffer)] ∧
      (Billboard.make image colorCorrectionBuffer parent freshBuffer).1.mesh.attributeBindings
        = [(ShaderAttribute.position, freshBuffer)] ∧
      ((Billboard.make image colorCorrectionBuffer parent freshBuffer).2).countP
        Op.isAddBuffer = 1 :=
  ⟨rfl, rfl, rfl, rfl, rfl, rfl⟩

/-- Claim C10: `draw` leaves the billboard's own fields and node
scaling unchanged, and a repeated `draw` with the same arguments issues
the same operation sequence. -/
theorem draw_leaves_billboard_unchanged
    (b : Billboard) (transformationMatrix : Matrix3) (camera : Camera2D) :
    (b.draw transformationMatrix camera).1 = b ∧
      (((b.draw transformationMatrix camera).1).draw transformationMatrix camera).2
        = (b.draw transformationMatrix camera).2 :=
  ⟨rfl, rfl⟩

/-- Claim C2: in every `draw` call the shader activation and both
texture binds occur strictly before the mesh draw call, which is the
last operation, and exactly one mesh draw call is issued. -/
theorem draw_binds_before_single_mesh_draw
    (b : Billboard) (transformationMatrix : Matrix3) (camera : Camera2D) :
    ((b.draw transformationMatrix camera).2).countP Op.isMeshDraw = 1 ∧
      ((b.draw transformationMatrix camera).2).getLast? = some Op.meshDraw ∧
      ((b.draw transformationMatrix camera).2).dropLast.any Op.isShaderUse = true ∧
      ((b.draw transformationMatrix camera).2).dropLast.any Op.isTextureBind = true ∧
      ((b.draw transformationMatrix camera).2).dropLast.any
        Op.isColorCorrectionTextureBind = true :=
  ⟨rfl, rfl, rfl, rfl, rfl⟩

/-- Claim C5: the constructor contains exactly one operation consuming
the image's pixel buffer and exactly one operation computed from the
image's size, and no operation of `draw` touches the image at all. -/
theorem image_consumed_once_at_construction
    (image : ImageData2D) (colorCorrectionBuffer : BufferId)
    (parent : Nat) (freshBuffer : BufferId)
    (transformationMatrix : Matrix3) (camera : Camera2D) :
    ((Billboard.make image colorCorrectionBuffer parent freshBuffer).2).countP
        Op.usesImagePixels = 1 ∧
      ((Billboard.make image colorCorrectionBuffer parent freshBuffer).2).countP
        Op.usesImageSize = 1 ∧
      (((Billboard.make image colorCorrectionBuffer parent freshBuffer).1.draw
        transformationMatrix camera).2).countP Op.usesImagePixels = 0 ∧
      (((Billboard.make image colorCorrectionBuffer parent freshBuffer).1.draw
        transformationMatrix camera).2).countP Op.usesImageSize = 0 :=
  ⟨rfl, rfl, rfl, rfl⟩

/-- Claim C9: for an image of width zero the constructor still issues
its full unconditional operation sequence (no zero check, no error
branch) and the computed vertical scale factor is not a finite value. -/
theorem zero_width_division_unguarded
    (image : ImageData2D) (colorCorrectionBuffer : BufferId)
    (parent : Nat) (freshBuffer : BufferId)
    (hzero : image.size.x = 0) :
    ((Billboard.make image colorCorrectionBuffer parent freshBuffer).2).map Op.kind
        = ctorKinds ∧
      GLnum.isFinite
        ((Billboard.make image colorCorrectionBuffer parent freshBuffer).1.nodeScaling.y)
        = false := by
  refine ⟨rfl, ?_⟩
  have hx : ((image.size.x : ℚ)) = 0 := by exact_mod_cast hzero
  simp only [Billboard.make, Vector2.yScale, glDiv, hx, if_pos]
  split
  · rfl
  · split
    · rfl
    · rfl

/-- Witness for C9 at a concrete zero-width image. -/
theorem zero_width_division_unguarded_witness :
    ((Billboard.make ⟨⟨0, 3⟩, [1]⟩ 0 7 1).2).map Op.kind = ctorKinds ∧
      GLnum.isFinite ((Billboard.make ⟨⟨0, 3⟩, [1]⟩ 0 7 1).1.nodeScaling.y) = false :=
  zero_width_division_unguarded ⟨⟨0, 3⟩, [1]⟩ 0 7 1 (by decide)

/-- Running an appended operation list runs the two parts in sequence. -/
theorem runOps_append (l1 l2 : List Op) (s : GPUState) :
    runOps (l1 ++ l2) s = runOps l2 (runOps l1 s) :=
  List.foldl_append _ _ l1 l2

/-- A `draw` call issues no buffer write: buffer contents are untouched. -/
theorem runOps_draw_bufferContents
    (b : Billboard) (transformationMatrix : Matrix3) (camera : Camera2D)
    (s : GPUState) :
    (runOps (b.draw transformationMatrix camera).2 s).bufferContents
      = s.bufferContents := rfl

/-- Any sequence of `draw` calls leaves all buffer contents untouched. -/
theorem runOps_draws_bufferContents (b : Billboard)
    (draws : List (Matrix3 × Camera2D)) (s : GPUState) :
    (runOps ((draws.map (fun dc => (b.draw dc.1 dc.2).2)).flatten) s).bufferContents
      = s.bufferContents := by
  induction draws generalizing s with
  | nil => rfl
  | cons d rest ih =>
      rw [List.map_cons, List.flatten_cons, runOps_append, ih,
        runOps_draw_bufferContents]

/-- The constructor's only buffer write targets the freshly allocated
mesh vertex buffer. -/
theorem runOps_ctor_bufferContents
    (image : ImageData2D) (colorCorrectionBuffer : BufferId)
    (parent : Nat) (freshBuffer : BufferId) (s : GPUState) :
    (runOps (Billboard.make image colorCorrectionBuffer parent freshBuffer).2 s).bufferContents
      = Function.update s.bufferContents freshBuffer squarePositions := rfl

/-- Claim C4: the externally supplied colour-correction buffer is
read-only for the billboard: across construction followed by any
sequence of `draw` calls its contents are never written, the only
buffer write being to the mesh's own freshly allocated vertex buffer
(which, being fresh, differs from the colour-correction buffer). -/
theorem colorCorrection_buffer_never_written
    (image : ImageData2D) (colorCorrectionBuffer : BufferId)
    (parent : Nat) (freshBuffer : BufferId)
    (draws : List (Matrix3 × Camera2D)) (s : GPUState)
    (hfresh : freshBuffer ≠ colorCorrectionBuffer) :
    (runOps (constructThenDraw image colorCorrectionBuffer parent freshBuffer draws) s).bufferContents
        colorCorrectionBuffer
      = s.bufferContents colorCorrectionBuffer := by
  rw [constructThenDraw, runOps_append, runOps_draws_bufferContents,
    runOps_ctor_bufferContents]
  exact Function.update_noteq (Ne.symm hfresh) _ _

/-- Witness for C4 at concrete inputs with one draw call. -/
theorem colorCorrection_buffer_never_written_witness :
    (runOps
        (constructThenDraw ⟨⟨4, 3⟩, [1]⟩ 0 7 1
          [(⟨1, 0, 0, 0, 1, 0, 0, 0, 1⟩, ⟨⟨2, 0, 0, 0, 2, 0, 0, 0, 1⟩⟩)])
        ⟨fun _ => [5], false, none, none, none, 0⟩).bufferContents 0
      = (⟨fun _ => [5], false, none, none, none, 0⟩ : GPUState).bufferContents 0 :=
  colorCorrection_buffer_never_written ⟨⟨4, 3⟩, [1]⟩ 0 7 1
    [(⟨1, 0, 0, 0, 1, 0, 0, 0, 1⟩, ⟨⟨2, 0, 0, 0, 2, 0, 0, 0, 1⟩⟩)]
    ⟨fun _ => [5], false, none, none, none, 0⟩ (by decide)

/-- Claim C6: in the construct-then-draw usage pattern, every prefix of
the operation trace that contains a mesh draw call already contains the
texture data upload and the whole mesh setup (buffer allocation, vertex
data upload, attribute binding): a draw with uninitialized texture or
mesh never occurs. -/
theorem setup_complete_before_first_mesh_draw
    (image : ImageData2D) (colorCorrectionBuffer : BufferId)
    (parent : Nat) (freshBuffer : BufferId)
    (draws : List (Matrix3 × Camera2D)) (n : Nat)
    (h : ((constructThenDraw image colorCorrectionBuffer parent freshBuffer draws).take n).any
        Op.isMeshDraw = true) :
    ((constructThenDraw image colorCorrectionBuffer parent freshBuffer draws).take n).any
        Op.isTextureSetData = true ∧
      ((constructThenDraw image colorCorrectionBuffer parent freshBuffer draws).take n).any
        Op.isAddBuffer = true ∧
      ((constructThenDraw image colorCorrectionBuffer parent freshBuffer draws).take n).any
        Op.isBufferSetData = true ∧
      ((constructThenDraw image colorCorrectionBuffer parent freshBuffer draws).take n).any
        Op.isBindAttribute = true := by
  have hlen :
      ((Billboard.make image colorCorrectionBuffer parent freshBuffer).2).length = 9 := rfl
  by_cases hn : 9 ≤ n
  · have hsplit :
        (constructThenDraw image colorCorrectionBuffer parent freshBuffer draws).take n
          = (Billboard.make image colorCorrectionBuffer parent freshBuffer).2 ++
            (((draws.map (fun dc =>
              ((Billboard.make image colorCorrectionBuffer parent freshBuffer).1.draw
                dc.1 dc.2).2)).flatten).take (n - 9)) := by
      rw [constructThenDraw, List.take_append_eq_append_take,
        List.take_of_length_le (by rw [hlen]; exact hn), hlen]
    rw [hsplit]
    refine ⟨?_, ?_, ?_, ?_⟩ <;>
      rw [List.any_append] <;> rfl
  · exfalso
    have hz : n - 9 = 0 := by omega
    rw [constructThenDraw, List.take_append_eq_append_take, hlen, hz,
      List.take_zero, List.append_nil] at h
    rcases List.any_eq_true.mp h with ⟨op, hmem, hop⟩
    have hmemL : op ∈ (Billboard.make image colorCorrectionBuffer parent freshBuffer).2 :=
      List.mem_of_mem_take hmem
    have hfalse :
        ((Billboard.make image colorCorrectionBuffer parent freshBuffer).2).any
          Op.isMeshDraw = true :=
      List.any_eq_true.mpr ⟨op, hmemL, hop⟩
    simp [Billboard.make, Op.isMeshDraw] at hfalse

/-- Witness for C6: a full trace with one draw call, cut after the mesh
draw call. -/
theorem setup_complete_before_first_mesh_draw_witness :
    ((constructThenDraw ⟨⟨4, 3⟩, [1]⟩ 0 7 1
        [(⟨1, 0, 0, 0, 1, 0, 0, 0, 1⟩, ⟨⟨2, 0, 0, 0, 2, 0, 0, 0, 1⟩⟩)]).take 14).any
        Op.isTextureSetData = true ∧
      ((constructThenDraw ⟨⟨4, 3⟩, [1]⟩ 0 7 1
        [(⟨1, 0, 0, 0, 1, 0, 0, 0, 1⟩, ⟨⟨2, 0, 0, 0, 2, 0, 0, 0, 1⟩⟩)]).take 14).any
        Op.isAddBuffer = true ∧
      ((constructThenDraw ⟨⟨4, 3⟩, [1]⟩ 0 7 1
        [(⟨1, 0, 0, 0, 1, 0, 0, 0, 1⟩, ⟨⟨2, 0, 0, 0, 2, 0, 0, 0, 1⟩⟩)]).take 14).any
        Op.isBufferSetData = true ∧
      ((constructThenDraw ⟨⟨4, 3⟩, [1]⟩ 0 7 1
        [(⟨1, 0, 0, 0, 1, 0, 0, 0, 1⟩, ⟨⟨2, 0, 0, 0, 2, 0, 0, 0, 1⟩⟩)]).take 14).any
        Op.isBindAttribute = true :=
  setup_complete_before_first_mesh_draw ⟨⟨4, 3⟩, [1]⟩ 0 7 1
    [(⟨1, 0, 0, 0, 1, 0, 0, 0, 1⟩, ⟨⟨2, 0, 0, 0, 2, 0, 0, 0, 1⟩⟩)] 14 (by decide)
